import Mathlib

/-!
Shallow embedding of the grouping-and-edge-derivation step
(`lambda-ecs/step-function/05.group-entities/index.py`): the handler
validates its input event, resolves each output reference against a
key-value record store, partitions the resolved entity pairs into
buckets keyed by the upper-cased first letter of the entity key,
derives relationship-edge strings by entity type, upserts the main
entity into a graph store, and persists one result record per bucket.

External effects (the record store, the graph upsert, UUID generation
and the wall clock) are modelled as an oracle passed in explicitly;
Python exceptions become an explicit `Except` error type; Python dicts
become association lists in insertion order; `json.dumps`/`json.loads`
round-tripping is modelled structurally (serialization is injective,
so record fields keep their structured values).  Strings are modelled
over ASCII: `Char.isAlpha`/`Char.toUpper` stand in for the Python functions
str.isalpha and str.upper.
-/

set_option autoImplicit false

namespace GroupEntities

/-- A JSON-ish attribute value as the handler distinguishes them:
a scalar string or a list of strings (`isinstance(value, list)`). -/
inductive AttrVal where
  | s (v : String)
  | l (vs : List String)
deriving DecidableEq, Repr

/-- Python truthiness of an attribute value: a string is truthy iff
non-empty, a list iff non-empty (`if entity_type:`). -/
def AttrVal.truthy : AttrVal → Bool
  | .s v => v ≠ ""
  | .l vs => ¬ vs.isEmpty

/-- Python `",".join(x)`: on a list of strings it intercalates; on a
string it iterates over its characters. -/
def pyJoin : AttrVal → String
  | .s v => String.intercalate "," (v.toList.map (fun c => String.mk [c]))
  | .l vs => String.intercalate "," vs

/-- One attribute record of `Summary.MAIN_ENTITY.ATTRIBUTES`: a dict
from attribute name to value, in insertion order. -/
abbrev Attribute := List (String × AttrVal)

/-- The in-place flattening the handler performs on each attribute
record: every list value is replaced by its comma-join
(`attribute[key] = ",".join(value)`); scalars pass through. -/
def flattenAttr (a : Attribute) : Attribute :=
  a.map (fun p =>
    match p.2 with
    | .l vs => (p.1, AttrVal.s (String.intercalate "," vs))
    | .s v => (p.1, AttrVal.s v))

/-- An entity descriptor: the dict `data[key]` mapping attribute names
(such as `TYPE`, `ROLE`) to values. -/
structure Descriptor where
  fields : List (String × AttrVal)
deriving DecidableEq, Repr

/-- Python `dict.get`: first binding of the key, `none` when absent. -/
def Descriptor.get (d : Descriptor) (k : String) : Option AttrVal :=
  (d.fields.find? (fun p => p.1 == k)).map (fun p => p.2)

/-- The Python exceptions the handler can raise or observe. -/
inductive PyError where
  | valueError (msg : String)
  | keyError (k : String)
  | typeError
  | graphError (msg : String)
deriving DecidableEq, Repr

/-- `',' .join(data[attr])` inside an edge template: a missing
attribute raises `KeyError` exactly as a Python subscript does. -/
def joinAttr (data : Descriptor) (attr : String) : Except PyError String :=
  match data.get attr with
  | none => .error (.keyError attr)
  | some v => .ok (pyJoin v)

/-- `create_edge(key, data, main_entity_name, entity_type)`: the
lookup table of four format strings, keyed by entity type; an unknown
type yields `None`.  Note that the `DIRECTOR` template in the source alone puts
a space after the colon: `(ROLE: ...)` versus `(PRODUCTS_USED:...)`. -/
def create_edge (key : String) (data : Descriptor) (main_entity_name : String)
    (entity_type : String) : Except PyError (Option String) :=
  if entity_type = "CUSTOMER" then
    (joinAttr data "PRODUCTS_USED").map
      (fun j => some (key ++ " is a customer of (PRODUCTS_USED:" ++ j ++ ") " ++ main_entity_name))
  else if entity_type = "SUPPLIER" then
    (joinAttr data "RELATIONSHIP").map
      (fun j => some (key ++ " is a supplier of (RELATIONSHIP:" ++ j ++ ") " ++ main_entity_name))
  else if entity_type = "COMPETITOR" then
    (joinAttr data "COMPETING_IN").map
      (fun j => some (key ++ " is a competitor of (COMPETING_IN:" ++ j ++ ") " ++ main_entity_name))
  else if entity_type = "DIRECTOR" then
    (joinAttr data "ROLE").map
      (fun j => some (key ++ " is a director of (ROLE: " ++ j ++ ") " ++ main_entity_name))
  else
    .ok none

/-- `key[0].upper() if key[0].isalpha() else "#"` (ASCII model). -/
def bucketKey (key : String) : String :=
  match key.toList with
  | [] => "#"
  | c :: _ => if c.isAlpha then String.mk [c.toUpper] else "#"

/-- One bucket: the ordered list of single-key mappings
`{key: data[key]}` appended to it, each modelled as a pair. -/
abbrev Bucket := List (String × Descriptor)

/-- The `results` dict: bucket key to bucket, in insertion order. -/
abbrev Buckets := List (String × Bucket)

/-- `results.setdefault(first_char, []).append({key: data[key]})`:
append to the existing bucket, or create it at the end. -/
def appendBucket (buckets : Buckets) (k : String) (p : String × Descriptor) : Buckets :=
  if buckets.any (fun b => b.1 == k) then
    buckets.map (fun b => if b.1 == k then (b.1, b.2 ++ [p]) else b)
  else
    buckets ++ [(k, [p])]

/-- The body of `for key in data:` for one entity pair, threading the
`(allEdges, results)` accumulators.  An empty key is skipped; the pair
is bucketed; when `data[key].get("TYPE")` is truthy the edge is
derived (a truthy non-string `TYPE` is an unhashable dict key, hence
`TypeError`); `if edge:` appends only a truthy edge string. -/
def processPair (main_entity_name key : String) (desc : Descriptor)
    (acc : List String × Buckets) : Except PyError (List String × Buckets) :=
  if key = "" then .ok acc
  else
    let acc' := (acc.1, appendBucket acc.2 (bucketKey key) (key, desc))
    match desc.get "TYPE" with
    | none => .ok acc'
    | some tv =>
      if tv.truthy then
        match tv with
        | .s t =>
          match create_edge key desc main_entity_name t with
          | .error e => .error e
          | .ok none => .ok acc'
          | .ok (some edge) =>
            if edge = "" then .ok acc'
            else .ok (acc'.1 ++ [edge], acc'.2)
        | .l _ => .error .typeError
      else .ok acc'

/-- `for key in data:` over one resolved record. An error raised by
`create_edge` is not caught here (the reference-level handler catches
only `ClientError` and `JSONDecodeError`), so it propagates. -/
def processData (main_entity_name : String) :
    List (String × Descriptor) → List String × Buckets →
    Except PyError (List String × Buckets)
  | [], acc => .ok acc
  | (key, desc) :: rest, acc =>
    match processPair main_entity_name key desc acc with
    | .error e => .error e
    | .ok acc' => processData main_entity_name rest acc'

/-- Outcome of `table.get_item` followed by `json.loads`:
the item may be absent (`Item` not in the response), the call may raise
`ClientError`, the payload may fail to deserialize
(`JSONDecodeError`), or it parses to an entity-key-to-descriptor
mapping. -/
inductive FetchResult where
  | missing
  | clientError
  | badPayload
  | record (data : List (String × Descriptor))
deriving DecidableEq, Repr

/-- The external collaborators of one invocation: the record store
keyed by id, the graph upsert (`GraphConnect` plus `getOrCreateID`,
failing with any exception message), per-bucket-key success of
`put_item`, the UUID stream, and the wall clock. -/
structure Oracle where
  get_item : String → FetchResult
  getOrCreateID : String → String → List Attribute → List String → Except String String
  put_item_ok : String → Bool
  uuid4 : Nat → String
  now : Nat

/-- The per-reference loop `for obj in event["output"]`.  Each output
element is a single-key mapping, modelled as its (key, id) pair;
`item_id = obj[list(obj.keys())[0]]` extracts the id.  A missing item,
a `ClientError` and a `JSONDecodeError` are caught and skipped
(`continue`); any other error from the body propagates. -/
def resolveLoop (o : Oracle) (main_entity_name : String) :
    List (String × String) → List String × Buckets →
    Except PyError (List String × Buckets)
  | [], acc => .ok acc
  | (_, item_id) :: rest, acc =>
    match o.get_item item_id with
    | .missing => resolveLoop o main_entity_name rest acc
    | .clientError => resolveLoop o main_entity_name rest acc
    | .badPayload => resolveLoop o main_entity_name rest acc
    | .record data =>
      match processData main_entity_name data acc with
      | .error e => .error e
      | .ok acc' => resolveLoop o main_entity_name rest acc'

/-- `summary["MAIN_ENTITY"]`: the name and the attribute records. -/
structure MainEntity where
  NAME : String
  ATTRIBUTES : List Attribute
deriving DecidableEq, Repr

/-- The `Summary` field of the event. -/
structure Summary where
  MAIN_ENTITY : MainEntity
deriving DecidableEq, Repr

/-- The input event: `Summary` (absent or falsy modelled as `none`)
and `output`, the list of single-key reference mappings. -/
structure Event where
  Summary : Option Summary
  output : List (String × String)
deriving DecidableEq, Repr

/-- One item written by `table.put_item`, with the fields the source
assembles; serialized fields keep their structured values. -/
structure ResultRecord where
  id : String
  main_entity : String
  key : String
  data : Bucket
  summary : Summary
  main_entity_all_edges : List String
  main_entity_id : String
  ttl_timestamp : Nat
deriving DecidableEq, Repr

/-- What one invocation of the handler does: the returned value or
the propagated exception, the records actually written by `put_item`,
and whether the graph upsert was attempted. -/
structure HandlerResult where
  outcome : Except PyError (List String)
  writes : List ResultRecord
  graphCalled : Bool
deriving Repr

/-- The persistence loop `for key in results:`: a fresh UUID per
iteration, one `put_item` per bucket; a failed put is skipped
(`ClientError` caught, `continue`) and contributes no returned id. -/
def persistLoop (o : Oracle) (main_entity_name : String) (summary : Summary)
    (allEdges : List String) (main_entity_id : String) :
    Buckets → Nat → List String × List ResultRecord
  | [], _ => ([], [])
  | (k, bucketData) :: rest, i =>
    let id := o.uuid4 i
    let tail := persistLoop o main_entity_name summary allEdges main_entity_id rest (i + 1)
    if o.put_item_ok k then
      (id :: tail.1,
       ⟨id, main_entity_name, k, bucketData, summary, allEdges, main_entity_id,
        o.now + 7200⟩ :: tail.2)
    else
      tail

/-- `lambda_handler(event, context)`.  Validation raises `ValueError`
when `Summary` or `output` is missing or falsy; the resolve loop
builds `allEdges` and `results`; attribute flattening happens inside
the graph block and mutates `summary` in place (so the later
`json.dumps(summary)` sees flattened attributes); any graph failure is
re-raised; finally each bucket is persisted. -/
def lambda_handler (o : Oracle) (event : Event) : HandlerResult :=
  match event.Summary with
  | none =>
    ⟨.error (.valueError "Missing required fields in event: Summary or output"), [], false⟩
  | some summary =>
    if event.output.isEmpty then
      ⟨.error (.valueError "Missing required fields in event: Summary or output"), [], false⟩
    else
      let main_entity_name := summary.MAIN_ENTITY.NAME
      let attributes := summary.MAIN_ENTITY.ATTRIBUTES
      match resolveLoop o main_entity_name event.output ([], []) with
      | .error e => ⟨.error e, [], false⟩
      | .ok acc =>
        let allEdges := acc.1
        let results := acc.2
        let processed_attributes := attributes.map flattenAttr
        match o.getOrCreateID "COMPANY" main_entity_name processed_attributes allEdges with
        | .error msg => ⟨.error (.graphError msg), [], true⟩
        | .ok main_entity_id =>
          let summary' : Summary := ⟨⟨main_entity_name, processed_attributes⟩⟩
          let uw := persistLoop o main_entity_name summary' allEdges main_entity_id results 0
          ⟨.ok uw.1, uw.2, true⟩

/-- Modelled from the spec: the free-text edge template
`<entity key> is a <relation> of (<qualifier label>:<comma-joined values>) <main entity name>`,
with nothing between the colon and the values. -/
def specEdgeTemplate (key relation label joined main_entity_name : String) : String :=
  key ++ " is a " ++ relation ++ " of (" ++ label ++ ":" ++ joined ++ ") " ++ main_entity_name
deriving instance DecidableEq for Except

/-- Invariant of the `results` accumulator: every bucket is non-empty,
and every pair sits under the bucket keyed by the first character of
its entity key, with a non-empty entity key. -/
def BucketsWF (bs : Buckets) : Prop :=
  ∀ b ∈ bs, b.2 ≠ [] ∧ ∀ p ∈ b.2, p.1 ≠ "" ∧ b.1 = bucketKey p.1

/-- A director descriptor with the `ROLE` attribute present. -/
def c3_desc : Descriptor := ⟨[("TYPE", .s "DIRECTOR"), ("ROLE", .l ["CEO"])]⟩

/-- A director descriptor with the `ROLE` attribute present. -/
def c1_desc : Descriptor := ⟨[("TYPE", .s "DIRECTOR"), ("ROLE", .l ["CEO"])]⟩

/-- A store resolving every id to the Bob record, with a graph upsert
that always fails. -/
def c1_oracle : Oracle :=
  ⟨fun _ => .record [("Bob", c1_desc)], fun _ _ _ _ => .error "graph down",
   fun _ => true, fun n => "u" ++ toString n, 0⟩

/-- A valid event with one reference. -/
def c1_event : Event := ⟨some ⟨⟨"Acme", []⟩⟩, [("r", "i")]⟩

/-- An oracle that never resolves anything. -/
def c2_oracle : Oracle :=
  ⟨fun _ => .missing, fun _ _ _ _ => .ok "", fun _ => true, fun _ => "", 0⟩

/-- An event whose `Summary` is missing. -/
def c2_event : Event := ⟨none, [("r", "i")]⟩

/-- A summary with one list-valued main-entity attribute. -/
def c4_summary : Summary := ⟨⟨"Acme", [[("X", .l ["a", "b"])]]⟩⟩

/-- A store resolving every id to one record with an attribute-free
descriptor, with everything downstream succeeding. -/
def c4_oracle : Oracle :=
  ⟨fun _ => .record [("Bob", ⟨[]⟩)], fun _ _ _ _ => .ok "mid", fun _ => true,
   fun n => "u" ++ toString n, 0⟩

/-- A valid event carrying the list-valued attribute. -/
def c4_event : Event := ⟨some c4_summary, [("r", "i")]⟩

/-- The single record the handler persists for that event: its summary
field holds the flattened attribute `a,b`, not the original list. -/
def c4_record : ResultRecord :=
  ⟨"u0", "Acme", "B", [("Bob", ⟨[]⟩)], ⟨⟨"Acme", [[("X", .s "a,b")]]⟩⟩, [], "mid", 7200⟩

/-- An oracle that never resolves anything. -/
def c5_oracle : Oracle :=
  ⟨fun _ => .missing, fun _ _ _ _ => .ok "", fun _ => true, fun _ => "", 0⟩

/-- A director descriptor lacking the `ROLE` attribute. -/
def c6_desc : Descriptor := ⟨[("TYPE", .s "DIRECTOR")]⟩

/-- A store resolving every id to the role-less director record, with
graph and persistence succeeding. -/
def c6_oracle : Oracle :=
  ⟨fun _ => .record [("Bob", c6_desc)], fun _ _ _ _ => .ok "mid", fun _ => true,
   fun n => "u" ++ toString n, 0⟩

/-- A valid event with one reference. -/
def c6_event : Event := ⟨some ⟨⟨"Acme", []⟩⟩, [("r", "i")]⟩

/-- A director descriptor with the `ROLE` attribute present. -/
def c6w_desc : Descriptor := ⟨[("TYPE", .s "DIRECTOR"), ("ROLE", .l ["CEO"])]⟩

/-- A store resolving every id to the complete director record. -/
def c6w_oracle : Oracle :=
  ⟨fun _ => .record [("Bob", c6w_desc)], fun _ _ _ _ => .ok "mid", fun _ => true,
   fun n => "u" ++ toString n, 0⟩

/-- A valid event with one reference. -/
def c6w_event : Event := ⟨some ⟨⟨"Acme", []⟩⟩, [("r", "i")]⟩

/-- The buckets the resolve phase produces for that event. -/
def c6w_buckets : Buckets := [("B", [("Bob", c6w_desc)])]

/-- A store resolving every id to a record keyed `3M`. -/
def c7_oracle : Oracle :=
  ⟨fun _ => .record [("3M", ⟨[]⟩)], fun _ _ _ _ => .ok "mid", fun _ => true,
   fun n => "u" ++ toString n, 0⟩

/-- A valid event with one reference. -/
def c7_event : Event := ⟨some ⟨⟨"Acme", []⟩⟩, [("r", "i")]⟩

/-- The record the handler persists for the `3M` entity: it lands in
the catch-all bucket `#`. -/
def c7_record : ResultRecord :=
  ⟨"u0", "Acme", "#", [("3M", ⟨[]⟩)], ⟨⟨"Acme", []⟩⟩, [], "mid", 7200⟩

/-- A descriptor declaring an unrecognized entity type. -/
def c8_desc : Descriptor := ⟨[("TYPE", .s "PARTNER")]⟩

/-- A store resolving every id to one record with an attribute-free
descriptor. -/
def c9_oracle : Oracle :=
  ⟨fun _ => .record [("Bob", ⟨[]⟩)], fun _ _ _ _ => .ok "mid", fun _ => true,
   fun n => "u" ++ toString n, 0⟩

/-- A valid event with one reference. -/
def c9_event : Event := ⟨some ⟨⟨"Acme", []⟩⟩, [("r", "i")]⟩

/-- The record the handler persists for the Bob entity. -/
def c9_record : ResultRecord :=
  ⟨"u0", "Acme", "B", [("Bob", ⟨[]⟩)], ⟨⟨"Acme", []⟩⟩, [], "mid", 7200⟩

/-- A director descriptor lacking the `ROLE` attribute. -/
def c10_desc : Descriptor := ⟨[("TYPE", .s "DIRECTOR")]⟩

/-- A store resolving every id to the role-less director record. -/
def c10_oracle : Oracle :=
  ⟨fun _ => .record [("Bob", c10_desc)], fun _ _ _ _ => .ok "mid", fun _ => true,
   fun n => "u" ++ toString n, 0⟩

/-- A valid event with one reference. -/
def c10_event : Event := ⟨some ⟨⟨"Acme", []⟩⟩, [("r", "i")]⟩

lemma bucketsWF_nil : BucketsWF [] := by
  intro b hb; cases hb

lemma bucketsWF_appendBucket (bs : Buckets) (p : String × Descriptor)
    (h : BucketsWF bs) (hp : p.1 ≠ "") :
    BucketsWF (appendBucket bs (bucketKey p.1) p) := by
  unfold appendBucket
  split
  · intro b hb
    simp only [List.mem_map] at hb
    obtain ⟨b0, hb0, rfl⟩ := hb
    by_cases hk : b0.1 == bucketKey p.1
    · simp only [hk, if_pos]
      constructor
      · simp
      · intro q hq
        rcases List.mem_append.mp hq with hq | hq
        · exact (h b0 hb0).2 q hq
        · rcases List.mem_singleton.mp hq with rfl
          exact ⟨hp, beq_iff_eq.mp hk⟩
    · simp only [hk, if_neg, Bool.false_eq_true, not_false_iff, ite_false]
      exact h b0 hb0
  · intro b hb
    rcases List.mem_append.mp hb with hb | hb
    · exact h b hb
    · rcases List.mem_singleton.mp hb with rfl
      refine ⟨by simp, ?_⟩
      intro q hq
      rcases List.mem_singleton.mp hq with rfl
      exact ⟨hp, rfl⟩

lemma processPair_ok_buckets (name key : String) (desc : Descriptor)
    (acc res : List String × Buckets)
    (h : processPair name key desc acc = .ok res) :
    res.2 = acc.2 ∨ (key ≠ "" ∧ res.2 = appendBucket acc.2 (bucketKey key) (key, desc)) := by
  unfold processPair at h
  split at h
  · cases h; exact Or.inl rfl
  · rename_i hkey
    split at h
    · cases h; exact Or.inr ⟨hkey, rfl⟩
    · split at h
      · split at h
        · split at h
          · cases h
          · cases h; exact Or.inr ⟨hkey, rfl⟩
          · split at h
            · cases h; exact Or.inr ⟨hkey, rfl⟩
            · cases h; exact Or.inr ⟨hkey, rfl⟩
        · cases h
      · cases h; exact Or.inr ⟨hkey, rfl⟩

lemma processData_WF (name : String) :
    ∀ (data : List (String × Descriptor)) (acc res : List String × Buckets),
      BucketsWF acc.2 → processData name data acc = .ok res → BucketsWF res.2 := by
  intro data
  induction data with
  | nil =>
    intro acc res h hres
    unfold processData at hres
    cases hres; exact h
  | cons hd tl ih =>
    intro acc res h hres
    obtain ⟨key, desc⟩ := hd
    unfold processData at hres
    cases hp : processPair name key desc acc with
    | error e => rw [hp] at hres; cases hres
    | ok acc' =>
      rw [hp] at hres
      refine ih acc' res ?_ hres
      rcases processPair_ok_buckets name key desc acc acc' hp with h2 | ⟨hk, h2⟩
      · rw [h2]; exact h
      · rw [h2]; exact bucketsWF_appendBucket acc.2 (key, desc) h hk

lemma resolveLoop_WF (o : Oracle) (name : String) :
    ∀ (refs : List (String × String)) (acc res : List String × Buckets),
      BucketsWF acc.2 → resolveLoop o name refs acc = .ok res → BucketsWF res.2 := by
  intro refs
  induction refs with
  | nil =>
    intro acc res h hres
    unfold resolveLoop at hres
    cases hres; exact h
  | cons hd tl ih =>
    intro acc res h hres
    obtain ⟨rn, item_id⟩ := hd
    unfold resolveLoop at hres
    split at hres
    · exact ih acc res h hres
    · exact ih acc res h hres
    · exact ih acc res h hres
    · rename_i data heq
      split at hres
      · cases hres
      · rename_i acc' hp
        exact ih acc' res (processData_WF name data acc acc' h hp) hres

lemma persistLoop_mem (o : Oracle) (name : String) (summ : Summary)
    (edges : List String) (mid : String) :
    ∀ (bs : Buckets) (i : Nat) (w : ResultRecord),
      w ∈ (persistLoop o name summ edges mid bs i).2 →
      w.summary = summ ∧ ∃ b ∈ bs, w.key = b.1 ∧ w.data = b.2 := by
  intro bs
  induction bs with
  | nil => intro i w hw; cases hw
  | cons hd tl ih =>
    intro i w hw
    obtain ⟨k, bd⟩ := hd
    unfold persistLoop at hw
    split at hw
    · rcases List.mem_cons.mp hw with rfl | hw
      · exact ⟨rfl, ⟨(k, bd), List.mem_cons_self _ _, rfl, rfl⟩⟩
      · obtain ⟨h1, b, hb, h2⟩ := ih (i + 1) w hw
        exact ⟨h1, b, List.mem_cons_of_mem _ hb, h2⟩
    · obtain ⟨h1, b, hb, h2⟩ := ih (i + 1) w hw
      exact ⟨h1, b, List.mem_cons_of_mem _ hb, h2⟩

lemma persistLoop_length (o : Oracle) (name : String) (summ : Summary)
    (edges : List String) (mid : String) (hput : ∀ k, o.put_item_ok k = true) :
    ∀ (bs : Buckets) (i : Nat),
      (persistLoop o name summ edges mid bs i).1.length = bs.length := by
  intro bs
  induction bs with
  | nil => intro i; rfl
  | cons hd tl ih =>
    intro i
    obtain ⟨k, bd⟩ := hd
    unfold persistLoop
    rw [hput k]
    simp only [if_true, List.length_cons]
    rw [ih (i + 1)]

lemma lambda_handler_summary_none (o : Oracle) (e : Event) (hs : e.Summary = none) :
    lambda_handler o e =
      ⟨.error (.valueError "Missing required fields in event: Summary or output"), [], false⟩ := by
  unfold lambda_handler
  rw [hs]

lemma lambda_handler_output_empty (o : Oracle) (e : Event) (s : Summary)
    (hs : e.Summary = some s) (ho : e.output.isEmpty = true) :
    lambda_handler o e =
      ⟨.error (.valueError "Missing required fields in event: Summary or output"), [], false⟩ := by
  unfold lambda_handler
  rw [hs]
  simp only [ho, if_true]

lemma lambda_handler_resolve_error (o : Oracle) (e : Event) (s : Summary) (er : PyError)
    (hs : e.Summary = some s) (ho : e.output.isEmpty = false)
    (hres : resolveLoop o s.MAIN_ENTITY.NAME e.output ([], []) = .error er) :
    lambda_handler o e = ⟨.error er, [], false⟩ := by
  unfold lambda_handler
  rw [hs]
  simp only [ho, Bool.false_eq_true, if_false, hres]

lemma lambda_handler_graph_error (o : Oracle) (e : Event) (s : Summary)
    (allEdges : List String) (buckets : Buckets) (msg : String)
    (hs : e.Summary = some s) (ho : e.output.isEmpty = false)
    (hres : resolveLoop o s.MAIN_ENTITY.NAME e.output ([], []) = .ok (allEdges, buckets))
    (hg : o.getOrCreateID "COMPANY" s.MAIN_ENTITY.NAME
          (s.MAIN_ENTITY.ATTRIBUTES.map flattenAttr) allEdges = .error msg) :
    lambda_handler o e = ⟨.error (.graphError msg), [], true⟩ := by
  unfold lambda_handler
  rw [hs]
  simp only [ho, Bool.false_eq_true, if_false, hres, hg]

lemma lambda_handler_ok (o : Oracle) (e : Event) (s : Summary)
    (allEdges : List String) (buckets : Buckets) (mid : String)
    (hs : e.Summary = some s) (ho : e.output.isEmpty = false)
    (hres : resolveLoop o s.MAIN_ENTITY.NAME e.output ([], []) = .ok (allEdges, buckets))
    (hg : o.getOrCreateID "COMPANY" s.MAIN_ENTITY.NAME
          (s.MAIN_ENTITY.ATTRIBUTES.map flattenAttr) allEdges = .ok mid) :
    lambda_handler o e =
      ⟨.ok (persistLoop o s.MAIN_ENTITY.NAME
              ⟨⟨s.MAIN_ENTITY.NAME, s.MAIN_ENTITY.ATTRIBUTES.map flattenAttr⟩⟩
              allEdges mid buckets 0).1,
       (persistLoop o s.MAIN_ENTITY.NAME
              ⟨⟨s.MAIN_ENTITY.NAME, s.MAIN_ENTITY.ATTRIBUTES.map flattenAttr⟩⟩
              allEdges mid buckets 0).2,
       true⟩ := by
  unfold lambda_handler
  rw [hs]
  simp only [ho, Bool.false_eq_true, if_false, hres, hg]

lemma lambda_handler_writes_shape (o : Oracle) (e : Event) (w : ResultRecord)
    (hw : w ∈ (lambda_handler o e).writes) :
    ∃ s, e.Summary = some s ∧
      ∃ allEdges buckets,
        resolveLoop o s.MAIN_ENTITY.NAME e.output ([], []) = .ok (allEdges, buckets) ∧
        BucketsWF buckets ∧
        w.summary = ⟨⟨s.MAIN_ENTITY.NAME, s.MAIN_ENTITY.ATTRIBUTES.map flattenAttr⟩⟩ ∧
        ∃ b ∈ buckets, w.key = b.1 ∧ w.data = b.2 := by
  cases hs : e.Summary with
  | none => rw [lambda_handler_summary_none o e hs] at hw; cases hw
  | some s =>
    cases ho : e.output.isEmpty with
    | true => rw [lambda_handler_output_empty o e s hs ho] at hw; cases hw
    | false =>
      cases hres : resolveLoop o s.MAIN_ENTITY.NAME e.output ([], []) with
      | error er => rw [lambda_handler_resolve_error o e s er hs ho hres] at hw; cases hw
      | ok acc =>
        cases hg : o.getOrCreateID "COMPANY" s.MAIN_ENTITY.NAME
            (s.MAIN_ENTITY.ATTRIBUTES.map flattenAttr) acc.1 with
        | error msg =>
          rw [lambda_handler_graph_error o e s acc.1 acc.2 msg hs ho (by rw [hres]) hg] at hw
          cases hw
        | ok mid =>
          rw [lambda_handler_ok o e s acc.1 acc.2 mid hs ho (by rw [hres]) hg] at hw
          obtain ⟨h1, b, hb, h2, h3⟩ :=
            persistLoop_mem o s.MAIN_ENTITY.NAME _ acc.1 mid acc.2 0 w hw
          exact ⟨s, rfl, acc.1, acc.2, by rw [hres],
                 resolveLoop_WF o s.MAIN_ENTITY.NAME e.output ([], []) acc
                   bucketsWF_nil (by rw [hres]),
                 h1, b, hb, h2, h3⟩

lemma spec_template_customer (key j name : String) :
    specEdgeTemplate key "customer" "PRODUCTS_USED" j name =
      key ++ " is a customer of (PRODUCTS_USED:" ++ j ++ ") " ++ name := by
  unfold specEdgeTemplate
  simp only [String.append_assoc]
  congr 1

lemma spec_template_supplier (key j name : String) :
    specEdgeTemplate key "supplier" "RELATIONSHIP" j name =
      key ++ " is a supplier of (RELATIONSHIP:" ++ j ++ ") " ++ name := by
  unfold specEdgeTemplate
  simp only [String.append_assoc]
  congr 1

lemma spec_template_competitor (key j name : String) :
    specEdgeTemplate key "competitor" "COMPETING_IN" j name =
      key ++ " is a competitor of (COMPETING_IN:" ++ j ++ ") " ++ name := by
  unfold specEdgeTemplate
  simp only [String.append_assoc]
  congr 1

/-- C1: if the graph upsert raises (here: fails on every input and the
handler reaches the graph call), the handler propagates the failure as
a graph error and persists zero result records, even when buckets had
already been computed by the resolve phase. -/
theorem graph_upsert_failure_aborts (o : Oracle) (e : Event) (m : String)
    (hg : ∀ label name attrs edges, o.getOrCreateID label name attrs edges = .error m)
    (hc : (lambda_handler o e).graphCalled = true) :
    (lambda_handler o e).outcome = .error (.graphError m) ∧
    (lambda_handler o e).writes = [] := by
  cases hs : e.Summary with
  | none => rw [lambda_handler_summary_none o e hs] at hc; cases hc
  | some s =>
    cases ho : e.output.isEmpty with
    | true => rw [lambda_handler_output_empty o e s hs ho] at hc; cases hc
    | false =>
      cases hres : resolveLoop o s.MAIN_ENTITY.NAME e.output ([], []) with
      | error er => rw [lambda_handler_resolve_error o e s er hs ho hres] at hc; cases hc
      | ok acc =>
        have hm := hg "COMPANY" s.MAIN_ENTITY.NAME
          (s.MAIN_ENTITY.ATTRIBUTES.map flattenAttr) acc.1
        rw [lambda_handler_graph_error o e s acc.1 acc.2 m hs ho (by rw [hres]) hm]
        exact ⟨rfl, rfl⟩

/-- C1 witness: on a concrete event whose single reference resolves to
a complete director record, the resolve phase computes a non-empty
bucket and one edge, yet a failing graph upsert leaves the outcome a
graph error and the write set empty. -/
theorem graph_upsert_failure_aborts_witness :
    resolveLoop c1_oracle "Acme" [("r", "i")] ([], []) =
      .ok (["Bob is a director of (ROLE: CEO) Acme"], [("B", [("Bob", c1_desc)])]) ∧
    (lambda_handler c1_oracle c1_event).outcome = .error (.graphError "graph down") ∧
    (lambda_handler c1_oracle c1_event).writes = [] :=
  ⟨by decide,
   (graph_upsert_failure_aborts c1_oracle c1_event "graph down"
     (fun _ _ _ _ => rfl) (by decide)).1,
   (graph_upsert_failure_aborts c1_oracle c1_event "graph down"
     (fun _ _ _ _ => rfl) (by decide)).2⟩

/-- C2: a missing (or falsy) `Summary` or an empty `output` makes the
handler raise the fatal input validation error, with zero result
records written and no graph call attempted. -/
theorem invalid_input_fatal (o : Oracle) (e : Event)
    (h : e.Summary = none ∨ e.output = []) :
    (lambda_handler o e).outcome =
      .error (.valueError "Missing required fields in event: Summary or output") ∧
    (lambda_handler o e).writes = [] ∧
    (lambda_handler o e).graphCalled = false := by
  rcases h with h | h
  · rw [lambda_handler_summary_none o e h]
    exact ⟨rfl, rfl, rfl⟩
  · cases hs : e.Summary with
    | none =>
      rw [lambda_handler_summary_none o e hs]
      exact ⟨rfl, rfl, rfl⟩
    | some s =>
      rw [lambda_handler_output_empty o e s hs (by rw [h]; rfl)]
      exact ⟨rfl, rfl, rfl⟩

/-- C2 witness: the concrete event with `Summary` absent. -/
theorem invalid_input_fatal_witness :
    (lambda_handler c2_oracle c2_event).outcome =
      .error (.valueError "Missing required fields in event: Summary or output") ∧
    (lambda_handler c2_oracle c2_event).writes = [] ∧
    (lambda_handler c2_oracle c2_event).graphCalled = false :=
  invalid_input_fatal c2_oracle c2_event (Or.inl rfl)

/-- C3 counterexample: the code derives the edge
`Bob is a director of (ROLE: CEO) Acme` — with a space after the
colon — so the derived edge differs from the no-space spec template
instantiated at the same input; moreover a descriptor declaring the
recognized type DIRECTOR but lacking `ROLE` derives no edge string at
all (it raises a key error), against the claim that every recognized
TYPE yields exactly one edge. -/
theorem edge_template_counterexample :
    create_edge "Bob" c3_desc "Acme" "DIRECTOR"
      = .ok (some "Bob is a director of (ROLE: CEO) Acme") ∧
    create_edge "Bob" c3_desc "Acme" "DIRECTOR"
      ≠ .ok (some (specEdgeTemplate "Bob" "director" "ROLE" "CEO" "Acme")) ∧
    create_edge "Bob" ⟨[("TYPE", .s "DIRECTOR")]⟩ "Acme" "DIRECTOR"
      = .error (.keyError "ROLE") :=
  ⟨by decide, by decide, by decide⟩

/-- C3 (amended): for a descriptor whose type-specific attribute is
present as a list of strings, exactly one edge string is derived;
CUSTOMER, SUPPLIER and COMPETITOR follow the no-space spec template
with the type-specific qualifier label, while DIRECTOR puts a space
after the colon; in particular the Bob/CEO/Acme edge is
`Bob is a director of (ROLE: CEO) Acme`. -/
theorem edge_templates_by_type (key main_entity_name : String) (desc : Descriptor)
    (vs : List String) :
    (desc.get "PRODUCTS_USED" = some (.l vs) →
      create_edge key desc main_entity_name "CUSTOMER" =
        .ok (some (specEdgeTemplate key "customer" "PRODUCTS_USED"
          (String.intercalate "," vs) main_entity_name))) ∧
    (desc.get "RELATIONSHIP" = some (.l vs) →
      create_edge key desc main_entity_name "SUPPLIER" =
        .ok (some (specEdgeTemplate key "supplier" "RELATIONSHIP"
          (String.intercalate "," vs) main_entity_name))) ∧
    (desc.get "COMPETING_IN" = some (.l vs) →
      create_edge key desc main_entity_name "COMPETITOR" =
        .ok (some (specEdgeTemplate key "competitor" "COMPETING_IN"
          (String.intercalate "," vs) main_entity_name))) ∧
    (desc.get "ROLE" = some (.l vs) →
      create_edge key desc main_entity_name "DIRECTOR" =
        .ok (some (key ++ " is a director of (ROLE: " ++
          String.intercalate "," vs ++ ") " ++ main_entity_name))) ∧
    create_edge "Bob" c3_desc "Acme" "DIRECTOR"
      = .ok (some "Bob is a director of (ROLE: CEO) Acme") := by
  refine ⟨?_, ?_, ?_, ?_, by decide⟩ <;> intro h
  · rw [spec_template_customer]
    unfold create_edge
    rw [if_pos rfl]
    unfold joinAttr
    rw [h]
    rfl
  · rw [spec_template_supplier]
    unfold create_edge
    rw [if_neg (by decide), if_pos rfl]
    unfold joinAttr
    rw [h]
    rfl
  · rw [spec_template_competitor]
    unfold create_edge
    rw [if_neg (by decide), if_neg (by decide), if_pos rfl]
    unfold joinAttr
    rw [h]
    rfl
  · unfold create_edge
    rw [if_neg (by decide), if_neg (by decide), if_neg (by decide), if_pos rfl]
    unfold joinAttr
    rw [h]
    rfl

/-- C3 witness: the DIRECTOR conjunct applied at the Bob/CEO/Acme
descriptor. -/
theorem edge_templates_by_type_witness :
    c3_desc.get "ROLE" = some (.l ["CEO"]) ∧
    create_edge "Bob" c3_desc "Acme" "DIRECTOR" =
      .ok (some ("Bob" ++ " is a director of (ROLE: " ++
        String.intercalate "," ["CEO"] ++ ") " ++ "Acme")) :=
  ⟨by decide, (edge_templates_by_type "Bob" "Acme" c3_desc ["CEO"]).2.2.2.1 (by decide)⟩

/-- C4 counterexample: with one list-valued main-entity attribute, the
summary stored in the persisted record has that attribute flattened to
`a,b` and therefore differs from the original Summary of the input
batch: the attribute-flattening step mutates the Summary in place
before it is serialized. -/
theorem original_summary_not_persisted :
    (lambda_handler c4_oracle c4_event).writes = [c4_record] ∧
    c4_record.summary ≠ c4_summary :=
  ⟨by decide, by decide⟩

/-- C4 (amended): the summary serialized into every persisted result
record is the Summary after attribute flattening — each list-valued
attribute replaced by its comma-joined string — not the original
Summary as received, because the flattening mutates the Summary in
place. -/
theorem result_record_summary_flattened (o : Oracle) (e : Event) (s : Summary)
    (w : ResultRecord) (hs : e.Summary = some s)
    (hw : w ∈ (lambda_handler o e).writes) :
    w.summary = ⟨⟨s.MAIN_ENTITY.NAME, s.MAIN_ENTITY.ATTRIBUTES.map flattenAttr⟩⟩ := by
  obtain ⟨s', hs', _, _, _, _, hsum, _⟩ := lambda_handler_writes_shape o e w hw
  rw [hs] at hs'
  injection hs' with h'
  rw [← h'] at hsum
  exact hsum

/-- C4 witness: the persisted record of the concrete run carries the
flattened summary. -/
theorem result_record_summary_flattened_witness :
    c4_record.summary =
      ⟨⟨c4_summary.MAIN_ENTITY.NAME, c4_summary.MAIN_ENTITY.ATTRIBUTES.map flattenAttr⟩⟩ :=
  result_record_summary_flattened c4_oracle c4_event c4_summary c4_record rfl (by decide)

/-- C5: a reference whose stored record is missing, or whose payload
fails to deserialize, is skipped: the resolve loop continues exactly
as if only the remaining references were present. -/
theorem unresolvable_reference_skipped (o : Oracle)
    (main_entity_name refName item_id : String)
    (rest : List (String × String)) (acc : List String × Buckets)
    (h : o.get_item item_id = .missing ∨ o.get_item item_id = .badPayload) :
    resolveLoop o main_entity_name ((refName, item_id) :: rest) acc =
      resolveLoop o main_entity_name rest acc := by
  rcases h with h | h <;> simp only [resolveLoop, h]

/-- C5 witness: skipping the single missing reference of a concrete
loop. -/
theorem unresolvable_reference_skipped_witness :
    resolveLoop c5_oracle "Acme" [("r", "i")] ([], []) =
      resolveLoop c5_oracle "Acme" [] ([], []) :=
  unresolvable_reference_skipped c5_oracle "Acme" "r" "i" [] ([], []) (Or.inl rfl)

/-- C6 counterexample: an event whose single reference resolves and
whose graph call and writes would all succeed, but whose resolved
record declares DIRECTOR without `ROLE`: the handler raises the key
error instead of returning a sequence of identifiers, so the claim
fails without a hypothesis on edge derivation. -/
theorem identifier_count_counterexample :
    c6_oracle.get_item "i" = .record [("Bob", c6_desc)] ∧
    c6_oracle.put_item_ok "B" = true ∧
    (lambda_handler c6_oracle c6_event).outcome = .error (.keyError "ROLE") ∧
    (lambda_handler c6_oracle c6_event).writes = [] :=
  ⟨rfl, rfl, by decide, by decide⟩

/-- C6 (amended): for a non-empty input batch whose references all
resolve, whose resolve phase (including edge derivation) raises no
error, and whose graph upsert and record writes succeed, the handler
returns a non-fatal sequence of identifiers whose length equals the
number of buckets produced — all of which are non-empty; an empty
sequence (no buckets) is a valid successful outcome. -/
theorem identifier_count_equals_bucket_count (o : Oracle) (e : Event) (s : Summary)
    (allEdges : List String) (buckets : Buckets) (mid : String)
    (hs : e.Summary = some s) (ho : e.output ≠ [])
    (_hresolve : ∀ r ∈ e.output, ∃ d, o.get_item r.2 = .record d)
    (hres : resolveLoop o s.MAIN_ENTITY.NAME e.output ([], []) = .ok (allEdges, buckets))
    (hg : o.getOrCreateID "COMPANY" s.MAIN_ENTITY.NAME
          (s.MAIN_ENTITY.ATTRIBUTES.map flattenAttr) allEdges = .ok mid)
    (hput : ∀ k, o.put_item_ok k = true) :
    (lambda_handler o e).outcome.map List.length = .ok buckets.length ∧
    ∀ b ∈ buckets, b.2 ≠ [] := by
  have ho' : e.output.isEmpty = false := by
    cases h : e.output with
    | nil => exact absurd h ho
    | cons a l => rfl
  rw [lambda_handler_ok o e s allEdges buckets mid hs ho' hres hg]
  refine ⟨?_, ?_⟩
  · exact congrArg Except.ok (persistLoop_length o s.MAIN_ENTITY.NAME
      ⟨⟨s.MAIN_ENTITY.NAME, s.MAIN_ENTITY.ATTRIBUTES.map flattenAttr⟩⟩
      allEdges mid hput buckets 0)
  · intro b hb
    exact (resolveLoop_WF o s.MAIN_ENTITY.NAME e.output ([], []) (allEdges, buckets)
      bucketsWF_nil hres b hb).1

/-- C6 witness: the concrete fully-resolvable run returns exactly one
identifier for its one bucket. -/
theorem identifier_count_equals_bucket_count_witness :
    (lambda_handler c6w_oracle c6w_event).outcome.map List.length =
      .ok c6w_buckets.length :=
  (identifier_count_equals_bucket_count c6w_oracle c6w_event ⟨⟨"Acme", []⟩⟩
    ["Bob is a director of (ROLE: CEO) Acme"] c6w_buckets "mid"
    rfl (by decide) (fun r _ => ⟨[("Bob", c6w_desc)], rfl⟩) (by decide) rfl
    (fun _ => rfl)).1

/-- C7: every pair of every persisted bucket sits under the bucket key
computed from the first character of its entity key — upper-cased when
alphabetic, the catch-all `#` otherwise — and in particular the key
`3M` maps to `#`. -/
theorem bucket_key_from_first_char (o : Oracle) (e : Event) (w : ResultRecord)
    (hw : w ∈ (lambda_handler o e).writes) (p : String × Descriptor)
    (hp : p ∈ w.data) :
    w.key = bucketKey p.1 ∧ bucketKey "3M" = "#" := by
  obtain ⟨s, _, allE, bks, _, hwf, _, b, hb, hkey, hdata⟩ :=
    lambda_handler_writes_shape o e w hw
  rw [hdata] at hp
  refine ⟨?_, by decide⟩
  rw [hkey]
  exact ((hwf b hb).2 p hp).2

/-- C7 witness: the record persisted for the `3M` entity sits under
the catch-all bucket key `#`. -/
theorem bucket_key_from_first_char_witness :
    c7_record.key = bucketKey "3M" ∧ bucketKey "3M" = "#" :=
  bucket_key_from_first_char c7_oracle c7_event c7_record (by decide)
    ("3M", ⟨[]⟩) (by decide)

/-- C8: a pair declaring a truthy but unrecognized TYPE never raises:
`create_edge` returns no edge, and the per-pair processing step
succeeds, leaving the edge list unchanged while still bucketing the
pair. -/
theorem unknown_type_no_edge (key main_entity_name t : String) (desc : Descriptor)
    (acc : List String × Buckets)
    (hk : key ≠ "") (ht : desc.get "TYPE" = some (.s t))
    (h1 : t ≠ "CUSTOMER") (h2 : t ≠ "SUPPLIER") (h3 : t ≠ "COMPETITOR")
    (h4 : t ≠ "DIRECTOR") :
    create_edge key desc main_entity_name t = .ok none ∧
    processPair main_entity_name key desc acc =
      .ok (acc.1, appendBucket acc.2 (bucketKey key) (key, desc)) := by
  have hce : create_edge key desc main_entity_name t = .ok none := by
    unfold create_edge
    rw [if_neg h1, if_neg h2, if_neg h3, if_neg h4]
  refine ⟨hce, ?_⟩
  unfold processPair
  rw [if_neg hk, ht]
  cases htr : (AttrVal.s t).truthy with
  | false => simp [htr]
  | true => simp [htr, hce]

/-- C8 witness: the unrecognized type PARTNER at a concrete pair. -/
theorem unknown_type_no_edge_witness :
    create_edge "Bob" c8_desc "Acme" "PARTNER" = .ok none ∧
    processPair "Acme" "Bob" c8_desc ([], []) =
      .ok ([], appendBucket [] (bucketKey "Bob") ("Bob", c8_desc)) :=
  unknown_type_no_edge "Bob" "Acme" "PARTNER" c8_desc ([], [])
    (by decide) rfl (by decide) (by decide) (by decide) (by decide)

/-- C9: every pair of every persisted bucket has a non-empty entity
key: pairs with an empty key are never appended to any bucket. -/
theorem no_empty_entity_key_in_buckets (o : Oracle) (e : Event) (w : ResultRecord)
    (hw : w ∈ (lambda_handler o e).writes) (p : String × Descriptor)
    (hp : p ∈ w.data) :
    p.1 ≠ "" := by
  obtain ⟨s, _, allE, bks, _, hwf, _, b, hb, hkey, hdata⟩ :=
    lambda_handler_writes_shape o e w hw
  rw [hdata] at hp
  exact ((hwf b hb).2 p hp).1

/-- C9 witness: the pair of the concrete persisted bucket. -/
theorem no_empty_entity_key_in_buckets_witness :
    ("Bob", (⟨[]⟩ : Descriptor)).1 ≠ "" :=
  no_empty_entity_key_in_buckets c9_oracle c9_event c9_record (by decide)
    ("Bob", ⟨[]⟩) (by decide)

/-- C10: a descriptor declaring a recognized TYPE but lacking the
type-specific attribute makes `create_edge` raise the key error; the
per-pair step propagates it (the per-reference handler catches only
client and decode errors), and when the resolve phase fails this way
the whole invocation aborts fatally with zero records written —
unlike an unrecognized TYPE, which is tolerated. -/
theorem missing_type_attr_fatal (key main_entity_name t attr : String)
    (desc : Descriptor) (acc : List String × Buckets)
    (o : Oracle) (e : Event) (s : Summary)
    (hk : key ≠ "")
    (ht : desc.get "TYPE" = some (.s t))
    (hcase : t = "CUSTOMER" ∧ attr = "PRODUCTS_USED" ∨
             t = "SUPPLIER" ∧ attr = "RELATIONSHIP" ∨
             t = "COMPETITOR" ∧ attr = "COMPETING_IN" ∨
             t = "DIRECTOR" ∧ attr = "ROLE")
    (hmiss : desc.get attr = none)
    (hs : e.Summary = some s) (ho : e.output.isEmpty = false)
    (hres : resolveLoop o s.MAIN_ENTITY.NAME e.output ([], []) =
      .error (.keyError attr)) :
    create_edge key desc main_entity_name t = .error (.keyError attr) ∧
    processPair main_entity_name key desc acc = .error (.keyError attr) ∧
    (lambda_handler o e).outcome = .error (.keyError attr) ∧
    (lambda_handler o e).writes = [] := by
  have hce : create_edge key desc main_entity_name t = .error (.keyError attr) := by
    rcases hcase with ⟨rfl, rfl⟩ | ⟨rfl, rfl⟩ | ⟨rfl, rfl⟩ | ⟨rfl, rfl⟩
    · unfold create_edge
      rw [if_pos rfl]
      unfold joinAttr
      rw [hmiss]
      rfl
    · unfold create_edge
      rw [if_neg (by decide), if_pos rfl]
      unfold joinAttr
      rw [hmiss]
      rfl
    · unfold create_edge
      rw [if_neg (by decide), if_neg (by decide), if_pos rfl]
      unfold joinAttr
      rw [hmiss]
      rfl
    · unfold create_edge
      rw [if_neg (by decide), if_neg (by decide), if_neg (by decide), if_pos rfl]
      unfold joinAttr
      rw [hmiss]
      rfl
  have htr : (AttrVal.s t).truthy = true := by
    rcases hcase with ⟨rfl, _⟩ | ⟨rfl, _⟩ | ⟨rfl, _⟩ | ⟨rfl, _⟩ <;> decide
  have hpp : processPair main_entity_name key desc acc = .error (.keyError attr) := by
    unfold processPair
    rw [if_neg hk, ht]
    simp [htr, hce]
  rw [lambda_handler_resolve_error o e s (.keyError attr) hs ho hres]
  exact ⟨hce, hpp, rfl, rfl⟩

/-- C10 witness: the role-less DIRECTOR record makes the concrete
invocation abort with the key error and zero writes. -/
theorem missing_type_attr_fatal_witness :
    create_edge "Bob" c10_desc "Acme" "DIRECTOR" = .error (.keyError "ROLE") ∧
    processPair "Acme" "Bob" c10_desc ([], []) = .error (.keyError "ROLE") ∧
    (lambda_handler c10_oracle c10_event).outcome = .error (.keyError "ROLE") ∧
    (lambda_handler c10_oracle c10_event).writes = [] :=
  missing_type_attr_fatal "Bob" "Acme" "DIRECTOR" "ROLE" c10_desc ([], [])
    c10_oracle c10_event ⟨⟨"Acme", []⟩⟩ (by decide) rfl
    (Or.inr (Or.inr (Or.inr ⟨rfl, rfl⟩))) rfl rfl rfl (by decide)

end GroupEntities
